import Mathlib

/-!
Shallow embedding of the `pyena` submission client (src/pyena/client.py) and
verification of the frozen claims about it.

The embedding translates the pure control flow of the client into Lean
functions.  External collaborators (HTTP transport, FTP, XML parsing by
BeautifulSoup, checksum computation, the system clock) are modelled as
explicit inputs:

* an HTTP response is a `Resp`: the integer status plus the parsed view of the
  body that the code actually consumes (the list of texts of `ERROR` elements
  in document order, and for each tag name the `accession` attribute of the
  first element carrying that tag, as an association list);
* `datetime.today()` is a `today : String` parameter;
* a call of a remote step is recorded in the result structure (for example
  `releaseCall` records whether and with which target the release request was
  posted), so that invocation claims become statements about values.

Machine integers do not overflow here (all codes are tiny), so outcome codes
are plain `Int`.
-/

set_option maxRecDepth 4096

/-! ## Python string primitives used by the client -/

/-- Whitespace characters recognised by Python `str.split()` (ASCII range). -/
def isPySpace (c : Char) : Bool :=
  c = ' ' || c = '\t' || c = '\n' || c = '\r' || c = '\x0b' || c = '\x0c'

/-- Worker for `splitWs`: accumulates the current word (reversed). -/
def splitWsGo : List Char → List Char → List (List Char)
  | [], acc => if acc.isEmpty then [] else [acc.reverse]
  | c :: cs, acc =>
    if isPySpace c then
      if acc.isEmpty then splitWsGo cs [] else acc.reverse :: splitWsGo cs []
    else
      splitWsGo cs (c :: acc)

/-- Python `str.split()` with no arguments: split on runs of whitespace,
dropping empty pieces. -/
def splitWs (s : List Char) : List (List Char) :=
  splitWsGo s []

/-- Python substring test `needle in hay`. -/
def containsSub (hay needle : List Char) : Bool :=
  match hay with
  | [] => needle.isEmpty
  | c :: t => needle.isPrefixOf (c :: t) || containsSub t needle

/-- Number of positions of `hay` at which `needle` occurs as a contiguous
substring (occurrences may overlap). -/
def countOcc (needle : List Char) : List Char → Nat
  | [] => if needle.isEmpty then 1 else 0
  | c :: t => (if needle.isPrefixOf (c :: t) then 1 else 0) + countOcc needle t

/-! ## Response classifier (`handle_response`, client.py lines 130-185) -/

/-- Parsed view of a response body: exactly the observations the client makes
through BeautifulSoup.  `errors` is the list of texts of the `ERROR` elements
in document order; `accOf` maps a tag name to the `accession` attribute of the
first element with that tag (`none` value models a missing attribute, a
missing key models a missing element / parse failure). -/
structure Body where
  errors : List String
  accOf : List (String × Option String)
deriving DecidableEq

/-- An HTTP response as consumed by the client: status plus parsed body. -/
structure Resp where
  status : Nat
  body : Body
deriving DecidableEq

/-- Result of `handle_response`: outcome code, extracted accession, and
whether the full body was dumped to the diagnostic stream. -/
structure HRes where
  code : Int
  accession : Option String
  dumped : Bool
deriving DecidableEq

/-- Error phrase of the duplicate-accession rule (client.py line 152). -/
def dupPhrase : String := "already exists in the submission account with accession:"

/-- Error phrase of the already-submitted rule (client.py line 157). -/
def waitPhrase : String := "has already been submitted and is waiting to be processed"

/-- Error phrase of the missing-upload rule (client.py line 163). -/
def missingPhrase : String := "does not exist in the upload area"

/-- Accession cleanup of the duplicate rule (client.py line 153):
`.replace('"', "").replace('.', "")` removes every double quote and every
period. -/
def stripAcc (t : List Char) : List Char :=
  (t.filter (fun c => c ≠ '"')).filter (fun c => c ≠ '.')

/-- The `for error in soup.findAll("ERROR")` loop of `handle_response`
(client.py lines 151-165).  `none` means the loop fell through without any
rule firing; `some (code, accession)` is the state at the `break`.
The indexing `split()[-1]` and `split()[4]` cannot fail when the guarding
phrase (8 resp. 10 whitespace-separated words) occurs in the text, so the
defaulted accessors agree with the source on every reachable input. -/
def scanErrors : List String → Option (Int × Option String)
  | [] => none
  | e :: rest =>
    if containsSub e.data dupPhrase.data then
      some (1, some (String.mk (stripAcc ((splitWs e.data).getLastD []))))
    else if containsSub e.data waitPhrase.data then
      some (1, some (String.mk ((splitWs e.data).getD 4 [])))
    else if containsSub e.data missingPhrase.data then
      some (-3, none)
    else
      scanErrors rest

/-- `handle_response(status_code, content, accession=False)`
(client.py lines 130-185).  The `accession` keyword is `False` (`none`) or a
tag name; Python truthiness makes the empty tag behave like `False`. -/
def handle_response (status_code : Nat) (content : Body) (accession : Option String) : HRes :=
  if status_code ≠ 200 then
    { code := -1, accession := none, dumped := true }
  else
    if 0 < content.errors.length then
      match scanErrors content.errors with
      | some r => { code := r.1, accession := r.2, dumped := false }
      | none => { code := -1, accession := none, dumped := true }
    else
      { code := 0,
        accession :=
          match accession with
          | some tagName =>
            if 0 < tagName.length then (content.accOf.lookup tagName).bind (fun v => v)
            else none
          | none => none,
        dumped := false }

/-! ## Vocabulary normalizer (`_convert_platform`, client.py lines 31-77) -/

/-- The fixed instrument table of `_convert_platform`, in source (insertion)
order: platform family paired with its (model key, model value) list. -/
def valid_enums : List (String × List (String × String)) :=
  [ ("ILLUMINA",
      [ ("X Five", "HiSeq X Five"),
        ("X Ten", "HiSeq X Ten"),
        ("Genome Analyzer", "Illumina Genome Analyzer"),
        ("Genome Analyzer II", "Illumina Genome Analyzer II"),
        ("Genome Analyzer IIx", "Illumina Genome Analyzer IIx"),
        ("HiScanSQ", "Illumina HiScanSQ"),
        ("HiSeq 1000", "Illumina HiSeq 1000"),
        ("HiSeq 1500", "Illumina HiSeq 1500"),
        ("HiSeq 2000", "Illumina HiSeq 2000"),
        ("HiSeq 2500", "Illumina HiSeq 2500"),
        ("HiSeq 3000", "Illumina HiSeq 3000"),
        ("HiSeq 4000", "Illumina HiSeq 4000"),
        ("iSeq 100", "Illumina iSeq 100"),
        ("MiSeq", "Illumina MiSeq"),
        ("MiniSeq", "Illumina MiniSeq"),
        ("NovaSeq 6000", "Illumina NovaSeq 6000"),
        ("NextSeq 500", "NextSeq 500"),
        ("NextSeq 550", "NextSeq 550"),
        ("hiseq", "unspecified"),
        ("miseq", "unspecified"),
        ("iseq", "unspecified"),
        ("novaseq", "unspecified"),
        ("nextseq", "unspecified") ]),
    ("OXFORD_NANOPORE",
      [ ("MinION", "MinION"),
        ("GridION", "GridION"),
        ("PromethION", "PromethION") ]),
    ("ION_TORRENT",
      [ ("Ion Torrent PGM", "Ion Torrent PGM"),
        ("Ion Torrent Proton", "Ion Torrent Proton"),
        ("Ion Torrent S5", "Ion Torrent S5"),
        ("Ion Torrent S5 XL", "Ion Torrent S5 XL") ]) ]

/-- `instrument_name.replace('_', ' ').lower()` (client.py line 72). -/
def normInstrument (s : String) : List Char :=
  (s.data.map (fun c => if c = '_' then ' ' else c)).map Char.toLower

/-- Inner loop of `_convert_platform`: first model of the platform whose
lowercased key occurs in the normalised instrument name. -/
def findModelIn (instr : List Char) : List (String × String) → Option String
  | [] => none
  | kv :: rest =>
    if containsSub instr (kv.1.data.map Char.toLower) then some kv.2
    else findModelIn instr rest

/-- Outer loop of `_convert_platform` over the platform families. -/
def convertPlatformGo (instr : List Char) :
    List (String × List (String × String)) → Option String × Option String
  | [] => (none, none)
  | p :: rest =>
    match findModelIn instr p.2 with
    | some v => (some p.1, some v)
    | none => convertPlatformGo instr rest

/-- `_convert_platform(instrument_name)` (client.py lines 31-77). -/
def _convert_platform (instrument_name : String) : Option String × Option String :=
  convertPlatformGo (normInstrument instrument_name) valid_enums

/-- The table flattened to (platform, key, value) triples in scan order. -/
def flatEntries : List (String × List (String × String)) → List (String × String × String)
  | [] => []
  | p :: rest => p.2.map (fun kv => (p.1, kv.1, kv.2)) ++ flatEntries rest

/-- Modelled from the amended claim wording: the result is determined by the
first entry, in the fixed table order, whose lowercased model key is a
substring of the lowercased, underscore-replaced input; `(none, none)` when no
entry matches. -/
def convertPlatformSpec (s : String) : Option String × Option String :=
  match (flatEntries valid_enums).find?
      (fun e => containsSub (normInstrument s) (e.2.1.data.map Char.toLower)) with
  | some e => (some e.1, some e.2.2)
  | none => (none, none)

/-! ## Submission envelope (`_add_today`, client.py lines 79-102) -/

/-- Template text of the submission wrapper before the center name. -/
def subPre : String := "\n    <SUBMISSION center_name=\""

/-- Template text between the center name and the action block. -/
def subMid : String := "\">\n    <ACTIONS>"

/-- Template text after the action block. -/
def subPost : String := "\n    </ACTIONS>\n    </SUBMISSION>\n    "

/-- The action block of modify mode (client.py lines 81-84). -/
def modifyActionXml : String := "\n        <ACTION>\n            <MODIFY/>\n        </ACTION>"

/-- Non-modify action block up to the hold date (client.py lines 89-96). -/
def addActionXmlPre : String :=
  "\n        <ACTION>\n            <ADD/>\n        </ACTION>\n        <ACTION>\n            <HOLD HoldUntilDate=\""

/-- Non-modify action block after the hold date. -/
def addActionXmlPost : String := "\" />\n        </ACTION>\n         "

/-- `_add_today(center_name, modify)`; `datetime.today().strftime('%Y-%m-%d')`
is the explicit `today` parameter. -/
def _add_today (center_name : String) (modify : Bool) (today : String) : String :=
  let action :=
    if modify then modifyActionXml
    else addActionXmlPre ++ today ++ addActionXmlPost
  subPre ++ center_name ++ subMid ++ action ++ subPost

/-! ## Submission client (`submit_today`, client.py lines 188-213) -/

/-- Result of `submit_today` / `register_sample` / `register_run`: the
returned `(status, accession)` pair plus the recorded release request.
`releaseCall = some t` means `_release_target` was invoked with target `t`
(the accession extracted from the initial response, possibly `None`);
`none` means no release request was posted. -/
structure SubmitResult where
  status : Int
  accession : Option String
  releaseCall : Option (Option String)
deriving DecidableEq

/-- `submit_today(submit_type, payload, center_name, release_asap, real,
modify)` (client.py lines 188-213).  The two network responses (initial
submission, release) are explicit inputs; the posted payload and envelope do
not influence the returned classification. -/
def submit_today (submit_type _payload center_name today : String)
    (release_asap _real modify : Bool) (initResp relResp : Resp) : SubmitResult :=
  let _files_submission := _add_today center_name modify today
  let first := handle_response initResp.status initResp.body (some submit_type)
  if release_asap = true ∧ first.code = 0 then
    let second := handle_response relResp.status relResp.body none
    { status := second.code, accession := first.accession, releaseCall := some first.accession }
  else
    { status := first.code, accession := first.accession, releaseCall := none }

/-! ## Sample registration (`register_sample`, client.py lines 215-232) -/

/-- The `s_attributes` join of `register_sample` (client.py line 216): one
`SAMPLE_ATTRIBUTE` element per attribute whose value is neither null nor
empty. -/
def sampleAttrXml (attributes : List (String × Option String)) : String :=
  String.intercalate "\n"
    (attributes.filterMap (fun kv =>
      match kv.2 with
      | some v =>
        if 0 < v.length then
          some ("<SAMPLE_ATTRIBUTE><TAG>" ++ kv.1 ++ "</TAG><VALUE>" ++ v ++ "</VALUE></SAMPLE_ATTRIBUTE>")
        else none
      | none => none))

/-- The `s_xml` document of `register_sample` (client.py lines 218-228). -/
def sampleXml (sample_alias taxon_id center_name : String)
    (attributes : List (String × Option String)) : String :=
  "\n    <SAMPLE_SET>\n    <SAMPLE alias=\"" ++ sample_alias ++ "\" center_name=\"" ++
    center_name ++ "\">\n    <TITLE>" ++ sample_alias ++
    "</TITLE>\n    <SAMPLE_NAME>\n      <TAXON_ID>" ++ taxon_id ++
    "</TAXON_ID>\n    </SAMPLE_NAME>\n    <SAMPLE_ATTRIBUTES>" ++ sampleAttrXml attributes ++
    "</SAMPLE_ATTRIBUTES>\n    </SAMPLE>\n    </SAMPLE_SET>\n    "

/-- `register_sample(...)` (client.py lines 215-232): modify mode submits with
`release_asap=False`, otherwise `release_asap=True`. -/
def register_sample (sample_alias taxon_id center_name : String)
    (attributes : List (String × Option String)) (today : String)
    (real modify : Bool) (initResp relResp : Resp) : SubmitResult :=
  let s_xml := sampleXml sample_alias taxon_id center_name attributes
  if modify then
    submit_today "SAMPLE" s_xml center_name today false real modify initResp relResp
  else
    submit_today "SAMPLE" s_xml center_name today true real modify initResp relResp

/-! ## Orchestrator (`cli`, client.py lines 311-387) -/

/-- Python truthiness of the `sample_accession` / `run_accession` variables:
a string is truthy iff non-empty; `None` is falsy. -/
def truthyOpt : Option String → Bool
  | none => false
  | some s => 0 < s.length

/-- How a `cli` invocation terminates: a `sys.exit`-style code (falling off
the end of `cli` is `exited 0`), or the uncaught `UnboundLocalError` raised at
`if run_stat < 0` when `run_stat` was never assigned. -/
inductive ExitKind where
  | exited : Nat → ExitKind
  | crashUnbound : ExitKind
deriving DecidableEq

/-- Command-line flags and arguments of `cli` consumed by the orchestration
logic (client.py lines 314-339). -/
structure CliArgs where
  my_data_is_ready : Bool
  no_ftp : Bool
  sample_only : Bool
  modify : Bool
  study_accession : String
  sample_name : String
deriving DecidableEq

/-- One record of the search-endpoint JSON answer, restricted to the field the
orchestrator reads. -/
structure SampleHit where
  secondary_sample_accession : String
deriving DecidableEq

/-- Observable outcome of one `cli` invocation: which registrations were
invoked (`expCall` records the `sample_accession` argument passed to
`register_experiment`, which the source may pass as `None`), the summary
`success` flag, and the exit behaviour. -/
structure CliResult where
  calledRegisterSample : Bool
  expCall : Option (Option String)
  calledRegisterRun : Bool
  success : Bool
  exit : ExitKind
deriving DecidableEq

/-- The orchestration of `cli` after argument parsing (client.py lines
343-387).  The three remote registration steps are external collaborators:
`samp_list` is the search answer, and `sampleRes`, `expRes`, `runRes` are the
`(stat, accession)` pairs the steps would return when invoked. -/
def cli (args : CliArgs) (samp_list : List SampleHit)
    (sampleRes expRes runRes : Int × Option String) : CliResult :=
  let step1 : Bool × Int × Option String :=
    match samp_list with
    | hit :: _ => (false, 1, some hit.secondary_sample_accession)
    | [] => (true, sampleRes.1, sampleRes.2)
  let calledRS := step1.1
  let sample_stat := step1.2.1
  let sample_accession := step1.2.2
  if 0 ≤ sample_stat ∧ truthyOpt sample_accession = true ∧ args.sample_only = true then
    { calledRegisterSample := calledRS, expCall := none, calledRegisterRun := false,
      success := true, exit := ExitKind.exited 0 }
  else if 0 ≤ sample_stat ∧ args.sample_only = false then
    let exp_stat := expRes.1
    if 0 ≤ exp_stat then
      let run_stat := runRes.1
      let run_accession := runRes.2
      if 0 ≤ run_stat ∧ truthyOpt run_accession = true then
        { calledRegisterSample := calledRS, expCall := some sample_accession,
          calledRegisterRun := true, success := true, exit := ExitKind.exited 0 }
      else if run_stat < 0 then
        { calledRegisterSample := calledRS, expCall := some sample_accession,
          calledRegisterRun := true, success := false, exit := ExitKind.exited run_stat.natAbs }
      else
        { calledRegisterSample := calledRS, expCall := some sample_accession,
          calledRegisterRun := true, success := false, exit := ExitKind.exited 2 }
    else
      { calledRegisterSample := calledRS, expCall := some sample_accession,
        calledRegisterRun := false, success := false, exit := ExitKind.crashUnbound }
  else
    { calledRegisterSample := calledRS, expCall := none, calledRegisterRun := false,
      success := false,
      exit := if args.sample_only then ExitKind.exited 2 else ExitKind.crashUnbound }

/-- Modelled from the amended claim wording for the exit contract: exit 0 on
success; exit 2 on sample-only failure; for full runs, a crash by unbound
`run_stat` when the pipeline stops fatally before run registration, exit with
the absolute value of the run outcome when run registration returns a negative
code, and exit 0 or 2 according to the run accession otherwise. -/
def cliExitSpec (args : CliArgs) (samp_list : List SampleHit)
    (sampleRes expRes runRes : Int × Option String) : ExitKind :=
  let sample_stat : Int :=
    match samp_list with
    | _ :: _ => 1
    | [] => sampleRes.1
  let sample_accession : Option String :=
    match samp_list with
    | hit :: _ => some hit.secondary_sample_accession
    | [] => sampleRes.2
  if args.sample_only then
    if 0 ≤ sample_stat ∧ truthyOpt sample_accession = true then ExitKind.exited 0
    else ExitKind.exited 2
  else if sample_stat < 0 then ExitKind.crashUnbound
  else if expRes.1 < 0 then ExitKind.crashUnbound
  else if runRes.1 < 0 then ExitKind.exited runRes.1.natAbs
  else if truthyOpt runRes.2 then ExitKind.exited 0
  else ExitKind.exited 2

/-! ## Concrete inputs used by witnesses and counterexamples -/

/-- A 200 response with no ERROR elements whose SAMPLE element carries
accession ERS1. -/
def respOK : Resp := ⟨200, ⟨[], [("SAMPLE", some "ERS1")]⟩⟩

/-- A 404 response. -/
def resp404 : Resp := ⟨404, ⟨[], []⟩⟩

/-- A duplicate-sample error text in the shape the archive produces. -/
def dupErrText : String :=
  "Sample X already exists in the submission account with accession: \"ABC123\"."

/-- A duplicate-sample error text whose quoted accession contains an interior
period. -/
def dottedErrText : String :=
  "Sample Y already exists in the submission account with accession: \"ERS.1\"."

/-- Arguments of a full (non-sample-only) invocation. -/
def args0 : CliArgs := ⟨false, false, false, false, "PRJ1", "s1"⟩

/-! ## Helper lemmas -/

theorem scanErrors_skip (pre l : List String)
    (h : ∀ x ∈ pre, containsSub x.data dupPhrase.data = false ∧
      containsSub x.data waitPhrase.data = false ∧
      containsSub x.data missingPhrase.data = false) :
    scanErrors (pre ++ l) = scanErrors l := by
  induction pre with
  | nil => rfl
  | cons x t ih =>
    obtain ⟨ha, hb, hc⟩ := h x (by simp)
    have ht : ∀ y ∈ t, containsSub y.data dupPhrase.data = false ∧
        containsSub y.data waitPhrase.data = false ∧
        containsSub y.data missingPhrase.data = false := by
      intro y hy; exact h y (by simp [hy])
    simp [scanErrors, ha, hb, hc, ih ht]

theorem scanErrors_shape (l : List String) (r : Int × Option String)
    (h : scanErrors l = some r) : r.1 = 1 ∨ (r.1 = -3 ∧ r.2 = none) := by
  induction l with
  | nil => simp [scanErrors] at h
  | cons x t ih =>
    by_cases ha : containsSub x.data dupPhrase.data
    · simp [scanErrors, ha] at h
      left; rw [← h]
    · by_cases hb : containsSub x.data waitPhrase.data
      · simp [scanErrors, ha, hb] at h
        left; rw [← h]
      · by_cases hc : containsSub x.data missingPhrase.data
        · simp [scanErrors, ha, hb, hc] at h
          right; rw [← h]; exact ⟨rfl, rfl⟩
        · simp only [scanErrors, ha, hb, hc, if_false, Bool.false_eq_true] at h
          exact ih h

theorem find?_map_append {α β : Type} (f : α → β) (p : β → Bool)
    (l : List α) (tail : List β) :
    List.find? p (l.map f ++ tail) =
      match List.find? (fun a => p (f a)) l with
      | some a => some (f a)
      | none => List.find? p tail := by
  induction l with
  | nil => simp
  | cons a t ih =>
    by_cases h : p (f a)
    · simp [List.find?_cons, h]
    · simp only [List.map_cons, List.cons_append, List.find?_cons, h, Bool.false_eq_true,
        if_false, cond_false]
      exact ih

theorem findModelIn_eq (instr : List Char) (models : List (String × String)) :
    findModelIn instr models =
      (List.find? (fun kv => containsSub instr (kv.1.data.map Char.toLower)) models).map
        Prod.snd := by
  induction models with
  | nil => rfl
  | cons kv rest ih =>
    by_cases h : containsSub instr (kv.1.data.map Char.toLower)
    · simp [findModelIn, List.find?_cons, h]
    · simp [findModelIn, List.find?_cons, h, ih]

theorem convertPlatformGo_eq (instr : List Char)
    (t : List (String × List (String × String))) :
    convertPlatformGo instr t =
      match (flatEntries t).find?
          (fun e => containsSub instr (e.2.1.data.map Char.toLower)) with
      | some e => (some e.1, some e.2.2)
      | none => (none, none) := by
  induction t with
  | nil => rfl
  | cons p rest ih =>
    have hmap := find?_map_append (fun kv => (p.1, kv.1, kv.2))
      (fun e => containsSub instr (e.2.1.data.map Char.toLower)) p.2 (flatEntries rest)
    simp only [flatEntries, hmap]
    rw [convertPlatformGo, findModelIn_eq]
    cases hf : List.find? (fun kv => containsSub instr (kv.1.data.map Char.toLower)) p.2 with
    | none => simp [hf, ih]
    | some kv => simp [hf]

/-! ## Claims about the response classifier -/

/-- Claim C5: for every HTTP status different from 200 and every response
body, `handle_response` returns the FATAL outcome (code -1) with accession
`None` and dumps the full body to the diagnostic stream; in particular status
404 yields FATAL regardless of body content. -/
theorem claim_C5 (status : Nat) (content : Body) (tag : Option String)
    (h : status ≠ 200) :
    handle_response status content tag = ⟨-1, none, true⟩ := by
  simp [handle_response, h]

/-- Witness for C5 at status 404 with a non-trivial body. -/
theorem claim_C5_witness :
    handle_response 404 ⟨["some ERROR text", "more"], [("SAMPLE", some "ERS9")]⟩ (some "SAMPLE")
      = ⟨-1, none, true⟩ :=
  claim_C5 404 ⟨["some ERROR text", "more"], [("SAMPLE", some "ERS9")]⟩ (some "SAMPLE")
    (by decide)

/-- Claim C8: for every 200 response whose body contains no ERROR elements,
`handle_response` returns the OK outcome (code 0); when a truthy accession tag
is given, the accession attribute of the first element matching that tag is
extracted, and any extraction failure leaves the accession `None` with the
outcome still OK and no exception. -/
theorem claim_C8 (accOf : List (String × Option String)) (tag : Option String) :
    handle_response 200 ⟨[], accOf⟩ tag =
      ⟨0,
        (match tag with
          | some tagName =>
            if 0 < tagName.length then (accOf.lookup tagName).bind (fun v => v) else none
          | none => none),
        false⟩ := by
  cases tag <;> rfl

/-- Claim C10: for every HTTP status and every response body,
`handle_response` returns a code in {-3, -1, 0, 1}, and whenever the code is
-1 (FATAL) or -3 (MISSING_UPLOAD) the accession is `None`; hence a non-`None`
accession only accompanies code 0 (OK) or 1 (DUPLICATE). -/
theorem claim_C10 (status : Nat) (content : Body) (tag : Option String) :
    (handle_response status content tag).code = 0 ∨
    (handle_response status content tag).code = 1 ∨
    (((handle_response status content tag).code = -1 ∨
      (handle_response status content tag).code = -3) ∧
      (handle_response status content tag).accession = none) := by
  by_cases h : status = 200
  · subst h
    by_cases he : 0 < content.errors.length
    · cases hs : scanErrors content.errors with
      | none =>
        have hval : handle_response 200 content tag = ⟨-1, none, true⟩ := by
          simp [handle_response, he, hs]
        rw [hval]
        right; right; exact ⟨Or.inl rfl, rfl⟩
      | some r =>
        have hval : handle_response 200 content tag = ⟨r.1, r.2, false⟩ := by
          simp [handle_response, he, hs]
        rw [hval]
        rcases scanErrors_shape content.errors r hs with h1 | h3
        · right; left; exact h1
        · right; right; exact ⟨Or.inr h3.1, h3.2⟩
    · left
      simp [handle_response, he]
  · have hval : handle_response status content tag = ⟨-1, none, true⟩ := by
      simp [handle_response, h]
    rw [hval]
    right; right; exact ⟨Or.inl rfl, rfl⟩

/-- Counterexample to claim C4 as stated: the code removes every double quote
and every period from the last token (so an accession with an interior period
is mangled), and an earlier ERROR matching another rule pre-empts the
duplicate rule even though the body contains a duplicate-accession ERROR. -/
theorem claim_C4_counterexample :
    handle_response 200 ⟨[dottedErrText], []⟩ none = ⟨1, some "ERS1", false⟩ ∧
    (handle_response 200 ⟨[dottedErrText], []⟩ none).accession ≠ some "ERS.1" ∧
    handle_response 200 ⟨["File x.bam does not exist in the upload area", dupErrText], []⟩ none
      = ⟨-3, none, false⟩ := by
  refine ⟨by decide, by decide, by decide⟩

/-- Claim C4, amended: for every 200 response whose ERROR elements, scanned in
document order, first fire a classification rule at an error containing
"already exists in the submission account with accession:", `handle_response`
returns DUPLICATE (code 1) with accession equal to the last
whitespace-delimited token of that error text with every double quote and
every period character removed. -/
theorem claim_C4_amended (pre post : List String) (e : String)
    (accOf : List (String × Option String)) (tag : Option String)
    (hpre : ∀ x ∈ pre, containsSub x.data dupPhrase.data = false ∧
      containsSub x.data waitPhrase.data = false ∧
      containsSub x.data missingPhrase.data = false)
    (he : containsSub e.data dupPhrase.data = true) :
    handle_response 200 ⟨pre ++ e :: post, accOf⟩ tag =
      ⟨1, some (String.mk (stripAcc ((splitWs e.data).getLastD []))), false⟩ := by
  have hscan : scanErrors (pre ++ e :: post) =
      some (1, some (String.mk (stripAcc ((splitWs e.data).getLastD [])))) := by
    rw [scanErrors_skip pre (e :: post) hpre]
    simp [scanErrors, he]
  have hlen : 0 < (pre ++ e :: post).length := by simp
  simp only [handle_response, ne_eq, not_true_eq_false, if_false, hlen, if_true, hscan]

/-- Witness for the amended C4 on a concrete duplicate-sample body. -/
theorem claim_C4_witness :
    handle_response 200 ⟨[dupErrText], []⟩ none = ⟨1, some "ABC123", false⟩ := by
  have h := claim_C4_amended [] [] dupErrText [] none (by simp) (by decide)
  rw [List.nil_append] at h
  rw [h]; decide

/-- Claim C7: for every 200 response whose body contains an ERROR whose text
contains "does not exist in the upload area", where neither that error nor any
earlier-scanned error matches a duplicate rule, `handle_response` returns the
MISSING_UPLOAD outcome (code -3) with accession `None`. -/
theorem claim_C7 (pre post : List String) (e : String)
    (accOf : List (String × Option String)) (tag : Option String)
    (hpre : ∀ x ∈ pre, containsSub x.data dupPhrase.data = false ∧
      containsSub x.data waitPhrase.data = false)
    (hea : containsSub e.data dupPhrase.data = false)
    (heb : containsSub e.data waitPhrase.data = false)
    (hec : containsSub e.data missingPhrase.data = true) :
    handle_response 200 ⟨pre ++ e :: post, accOf⟩ tag = ⟨-3, none, false⟩ := by
  have hscan : scanErrors (pre ++ e :: post) = some (-3, none) := by
    induction pre with
    | nil => simp [scanErrors, hea, heb, hec]
    | cons x t ih =>
      obtain ⟨hxa, hxb⟩ := hpre x (by simp)
      have ht : ∀ y ∈ t, containsSub y.data dupPhrase.data = false ∧
          containsSub y.data waitPhrase.data = false := by
        intro y hy; exact hpre y (by simp [hy])
      by_cases hxc : containsSub x.data missingPhrase.data
      · simp [scanErrors, hxa, hxb, hxc]
      · simp only [List.cons_append, scanErrors, hxa, hxb, hxc, Bool.false_eq_true,
          if_false]
        exact ih ht
  have hlen : 0 < (pre ++ e :: post).length := by simp
  simp only [handle_response, ne_eq, not_true_eq_false, if_false, hlen, if_true, hscan]

/-- Witness for C7: a body whose single ERROR reports a missing upload. -/
theorem claim_C7_witness :
    handle_response 200 ⟨["File x.bam does not exist in the upload area"], []⟩ (some "RUN")
      = ⟨-3, none, false⟩ := by
  have h := claim_C7 [] [] "File x.bam does not exist in the upload area" [] (some "RUN")
    (by simp) (by decide) (by decide) (by decide)
  rw [List.nil_append] at h
  exact h

/-! ## Claims about the submission client -/

/-- Counterexample to claim C2 as stated: with `release_asap` and an OK
initial response, the release response classification is not used "only for
logging" — it overwrites the returned outcome.  Here the initial submission
classifies OK with accession ERS1, the release request answers 404, and
`submit_today` returns status -1 (the release outcome), not the initial 0. -/
theorem claim_C2_counterexample :
    (handle_response respOK.status respOK.body (some "SAMPLE")).code = 0 ∧
    submit_today "SAMPLE" "payload" "CENTER" "2021-01-01" true false false respOK resp404
      = ⟨-1, some "ERS1", some (some "ERS1")⟩ ∧
    (submit_today "SAMPLE" "payload" "CENTER" "2021-01-01" true false false respOK
        resp404).status ≠ 0 := by
  refine ⟨by decide, by decide, by decide⟩

/-- Claim C2, amended: for every `submit_today` call with `release_asap` true
whose initial response classifies as OK, a release request is issued targeting
the accession returned by the initial submission; the returned accession is
that of the initial submission (the release accession is discarded), but the
returned outcome is the classification of the release response, which replaces
the initial OK outcome. -/
theorem claim_C2_amended (submit_type payload center_name today : String)
    (real modify : Bool) (initResp relResp : Resp)
    (h : (handle_response initResp.status initResp.body (some submit_type)).code = 0) :
    submit_today submit_type payload center_name today true real modify initResp relResp =
      ⟨(handle_response relResp.status relResp.body none).code,
        (handle_response initResp.status initResp.body (some submit_type)).accession,
        some ((handle_response initResp.status initResp.body (some submit_type)).accession)⟩ := by
  simp [submit_today, h]

/-- Witness for the amended C2 at concrete responses. -/
theorem claim_C2_witness :
    submit_today "SAMPLE" "payload" "CENTER" "2021-01-01" true false false respOK respOK
      = ⟨0, some "ERS1", some (some "ERS1")⟩ := by
  rw [claim_C2_amended "SAMPLE" "payload" "CENTER" "2021-01-01" false false respOK respOK
    (by decide)]
  decide

/-! ## Claims about the vocabulary normalizer -/

/-- Counterexample to claim C3 as stated: the free text "Genome Analyzer IIx"
contains the known model substring "Genome Analyzer IIx", whose table entry is
("ILLUMINA", "Illumina Genome Analyzer IIx"), but the code returns the first
matching entry in table order, ("ILLUMINA", "Illumina Genome Analyzer"). -/
theorem claim_C3_counterexample :
    _convert_platform "Genome Analyzer IIx" = (some "ILLUMINA", some "Illumina Genome Analyzer") ∧
    _convert_platform "Genome Analyzer IIx" ≠ (some "ILLUMINA", some "Illumina Genome Analyzer IIx") := by
  refine ⟨by decide, by decide⟩

/-- Claim C3, amended: for every instrument free-text string,
`_convert_platform` returns the (platform, model) pair of the first entry, in
the fixed table order, whose lowercased model key is a substring of the
lowercased, underscore-replaced input (so generic keys such as "hiseq" yield
model "unspecified" when they are the first match), and returns (None, None)
when no entry matches. -/
theorem claim_C3_amended (s : String) : _convert_platform s = convertPlatformSpec s := by
  unfold _convert_platform convertPlatformSpec
  exact convertPlatformGo_eq (normInstrument s) valid_enums

/-! ## Claims about modify mode -/

/-- Claim C6: in modify mode, the envelope built by `_add_today` is the fixed
wrapper around the modify action block; that block holds exactly one ACTION,
which is a MODIFY, and mentions no HOLD date, while the wrapper text holds no
ACTION, MODIFY or HOLD occurrence; and `register_sample` in modify mode never
issues a release request, whatever the submission responses are. -/
theorem claim_C6 (center_name today sample_alias taxon_id : String)
    (attributes : List (String × Option String)) (real : Bool) (initResp relResp : Resp) :
    _add_today center_name true today =
      subPre ++ center_name ++ subMid ++ modifyActionXml ++ subPost ∧
    countOcc "<ACTION>".data modifyActionXml.data = 1 ∧
    countOcc "<MODIFY/>".data modifyActionXml.data = 1 ∧
    countOcc "HOLD".data modifyActionXml.data = 0 ∧
    countOcc "<ACTION>".data (subPre ++ subMid ++ subPost).data = 0 ∧
    countOcc "<MODIFY/>".data (subPre ++ subMid ++ subPost).data = 0 ∧
    countOcc "HOLD".data (subPre ++ subMid ++ subPost).data = 0 ∧
    (register_sample sample_alias taxon_id center_name attributes today real true
        initResp relResp).releaseCall = none := by
  refine ⟨rfl, by decide, by decide, by decide, by decide, by decide, by decide, ?_⟩
  simp [register_sample, submit_today]

/-! ## Claims about the orchestrator -/

/-- Counterexample to claim C1 as stated: a full (non-sample-only) invocation
in which sample registration returns the fatal outcome (-1, None) does not
reach a defined exit path — `run_stat` is never assigned and the exit logic
raises an unbound-variable error instead of exiting with code 2. -/
theorem claim_C1_counterexample :
    (cli args0 [] (-1, none) (0, none) (0, none)).exit = ExitKind.crashUnbound ∧
    (cli args0 [] (-1, none) (0, none) (0, none)).exit ≠ ExitKind.exited 2 := by
  refine ⟨by decide, by decide⟩

/-- Claim C1, amended: the exit behaviour of `cli` is: exit 0 on overall
success; exit 2 on sample-only failure; for full runs that reach run
registration, exit with the absolute value of the run outcome code when it is
negative and exit 0 or 2 otherwise according to the run accession; but a full
run whose sample or experiment step ends with a fatal (negative) outcome
crashes on the unbound `run_stat` variable instead of exiting. -/
theorem claim_C1_amended (args : CliArgs) (samp_list : List SampleHit)
    (sampleRes expRes runRes : Int × Option String) :
    (cli args samp_list sampleRes expRes runRes).exit =
      cliExitSpec args samp_list sampleRes expRes runRes := by
  cases samp_list with
  | nil =>
    by_cases hso : args.sample_only = true
    · by_cases hss : (0 : Int) ≤ sampleRes.1
      · by_cases hta : truthyOpt sampleRes.2 = true
        · simp [cli, cliExitSpec, hso, hss, hta]
        · simp [cli, cliExitSpec, hso, hss, hta]
      · simp [cli, cliExitSpec, hso, hss, Int.not_le.mp hss]
    · by_cases hss : (0 : Int) ≤ sampleRes.1
      · by_cases hes : (0 : Int) ≤ expRes.1
        · by_cases hrs : (0 : Int) ≤ runRes.1
          · by_cases htr : truthyOpt runRes.2 = true
            · simp [cli, cliExitSpec, hso, hss, hes, hrs, htr,
                Int.not_lt.mpr hss, Int.not_lt.mpr hes, Int.not_lt.mpr hrs]
            · simp [cli, cliExitSpec, hso, hss, hes, hrs, htr,
                Int.not_lt.mpr hss, Int.not_lt.mpr hes, Int.not_lt.mpr hrs]
          · simp [cli, cliExitSpec, hso, hss, hes, hrs,
              Int.not_lt.mpr hss, Int.not_lt.mpr hes, Int.not_le.mp hrs]
        · simp [cli, cliExitSpec, hso, hss, hes,
            Int.not_lt.mpr hss, Int.not_le.mp hes]
      · simp [cli, cliExitSpec, hso, hss, Int.not_le.mp hss]
  | cons hit rest =>
    by_cases hso : args.sample_only = true
    · by_cases hta : truthyOpt (some hit.secondary_sample_accession) = true
      · simp [cli, cliExitSpec, hso, hta]
      · simp [cli, cliExitSpec, hso, hta]
    · by_cases hes : (0 : Int) ≤ expRes.1
      · by_cases hrs : (0 : Int) ≤ runRes.1
        · by_cases htr : truthyOpt runRes.2 = true
          · simp [cli, cliExitSpec, hso, hes, hrs, htr,
              Int.not_lt.mpr hes, Int.not_lt.mpr hrs]
          · simp [cli, cliExitSpec, hso, hes, hrs, htr,
              Int.not_lt.mpr hes, Int.not_lt.mpr hrs]
        · simp [cli, cliExitSpec, hso, hes, hrs,
            Int.not_lt.mpr hes, Int.not_le.mp hrs]
      · simp [cli, cliExitSpec, hso, hes, Int.not_le.mp hes]

/-- Claim C9: for every orchestrator run in which the search for an existing
sample returns a non-empty list, `register_sample` is never invoked, and (in a
full run) the secondary sample accession of the first returned record is the
sample accession passed unchanged into experiment registration; in a
sample-only run no experiment registration happens. -/
theorem claim_C9 (args : CliArgs) (hit : SampleHit) (rest : List SampleHit)
    (sampleRes expRes runRes : Int × Option String) :
    (cli args (hit :: rest) sampleRes expRes runRes).calledRegisterSample = false ∧
    (cli args (hit :: rest) sampleRes expRes runRes).expCall =
      (if args.sample_only then none else some (some hit.secondary_sample_accession)) := by
  by_cases hso : args.sample_only = true
  · by_cases hta : truthyOpt (some hit.secondary_sample_accession) = true
    · simp [cli, hso, hta]
    · simp [cli, hso, hta]
  · by_cases hes : (0 : Int) ≤ expRes.1
    · by_cases hrs : (0 : Int) ≤ runRes.1
      · by_cases htr : truthyOpt runRes.2 = true
        · simp [cli, hso, hes, hrs, htr]
        · simp [cli, hso, hes, hrs, htr, Int.not_lt.mpr hrs]
      · simp [cli, hso, hes, hrs, Int.not_le.mp hrs]
    · simp [cli, hso, hes]
